import Mathlib

/-!
Verification of the page controller in src/app/(public)/png-to-jpg/page.tsx.

The page holds a static list of converter presets and a small amount of UI
state.  Conversion is performed by decoding the uploaded file into a bitmap,
drawing it on a canvas and re-encoding the canvas to the target MIME type.
We embed the state of the React component, the static preset table, the
conversion routine and the event handlers as plain Lean functions, and the
canvas as a pixel function together with source-over compositing.
-/

namespace ImageConversion

/-- One entry of the static converter table (type ConverterConfig in the
source): a label, the required input MIME type, the output MIME type and
the suggested download extension. -/
structure ConverterConfig where
  label : String
  inputMime : String
  outputMime : String
  downloadExt : String
deriving DecidableEq, Repr

/-- The static list of converter presets, exactly as written in the source. -/
def converters : List ConverterConfig :=
  [ { label := "JPG to PNG", inputMime := "image/jpeg", outputMime := "image/png", downloadExt := "png" },
    { label := "PNG to JPG", inputMime := "image/png", outputMime := "image/jpeg", downloadExt := "jpg" },
    { label := "HEIC to JPG", inputMime := "image/heic", outputMime := "image/jpeg", downloadExt := "jpg" },
    { label := "WebP to JPEG", inputMime := "image/webp", outputMime := "image/jpeg", downloadExt := "jpg" },
    { label := "Word to JPEG", inputMime := "application/vnd.openxmlformats-officedocument.wordprocessingml.document", outputMime := "image/jpeg", downloadExt := "jpg" },
    { label := "JPEG to Word", inputMime := "image/jpeg", outputMime := "application/vnd.openxmlformats-officedocument.wordprocessingml.document", downloadExt := "docx" } ]

/-- An RGBA pixel; each channel ranges over 0..255. -/
structure Pixel where
  r : Nat
  g : Nat
  b : Nat
  a : Nat
deriving DecidableEq, Repr

/-- The fully transparent black pixel that a freshly created canvas holds. -/
def transparentBlack : Pixel := ⟨0, 0, 0, 0⟩

/-- The opaque white pixel used by the fillStyle of the white background. -/
def whitePixel : Pixel := ⟨255, 255, 255, 255⟩

/-- A decoded bitmap: its natural width and height and its pixels. -/
structure Bitmap where
  width : Nat
  height : Nat
  pix : Nat → Nat → Pixel

/-- An uploaded file: its declared MIME type and, when the browser can
decode it as an image, the decoded bitmap.  The source installs only an
img.onload handler, so a file that fails to decode produces no state
change at all. -/
structure UploadFile where
  type : String
  decoded : Option Bitmap

/-- A canvas: its size and its pixel contents. -/
structure Canvas where
  width : Nat
  height : Nat
  pix : Nat → Nat → Pixel

/-- document.createElement("canvas") followed by setting width and height:
a canvas of the given size whose pixels are all transparent black. -/
def createCanvas (w h : Nat) : Canvas :=
  ⟨w, h, fun _ _ => transparentBlack⟩

/-- ctx.fillRect(x0, y0, w, h) with a solid fill colour: every pixel inside
the rectangle becomes the fill colour, the rest are untouched. -/
def fillRect (c : Canvas) (x0 y0 w h : Nat) (col : Pixel) : Canvas :=
  { c with pix := fun x y =>
      if x0 ≤ x ∧ x < x0 + w ∧ y0 ≤ y ∧ y < y0 + h then col else c.pix x y }

/-- Source-over alpha compositing of a source pixel on a destination pixel,
the default composite operation of a 2d canvas context. -/
def over (src dst : Pixel) : Pixel :=
  let sa := src.a
  let da := dst.a * (255 - sa) / 255
  let oa := sa + da
  if oa = 0 then ⟨0, 0, 0, 0⟩
  else ⟨(src.r * sa + dst.r * da) / oa,
        (src.g * sa + dst.g * da) / oa,
        (src.b * sa + dst.b * da) / oa, oa⟩

/-- ctx.drawImage(img, dx, dy): the bitmap is composited source-over onto
the canvas with its top-left corner at (dx, dy). -/
def drawImage (c : Canvas) (img : Bitmap) (dx dy : Nat) : Canvas :=
  { c with pix := fun x y =>
      if dx ≤ x ∧ x < dx + img.width ∧ dy ≤ y ∧ y < dy + img.height then
        over (img.pix (x - dx) (y - dy)) (c.pix x y)
      else c.pix x y }

/-- Encoding to a format without an alpha channel (image/jpeg) discards
transparency: each pixel is flattened onto black, which is what makes a
transparent canvas region come out black unless a background was painted. -/
def flattenJpeg (p : Pixel) : Pixel :=
  ⟨p.r * p.a / 255, p.g * p.a / 255, p.b * p.a / 255, 255⟩

/-- The encoded output produced by canvas.toDataURL(mime, quality): the MIME
type and quality that were requested, and the encoded image contents. -/
structure EncodedImage where
  mime : String
  quality : ℚ
  width : Nat
  height : Nat
  pix : Nat → Nat → Pixel

/-- canvas.toDataURL(mime, q): encodes the canvas contents at the requested
MIME type and quality; for image/jpeg the alpha channel is flattened. -/
def toDataURL (c : Canvas) (mime : String) (q : ℚ) : EncodedImage :=
  ⟨mime, q, c.width, c.height,
   fun x y => if mime = "image/jpeg" then flattenJpeg (c.pix x y) else c.pix x y⟩

/-- The React state of the page component: outputUrl holds the conversion
result, error is a separate piece of state that is only ever set to null,
isDragging is the drag-over flag, snackbar is the transient notice, and
snackbarTimer models the pending 3-second auto-hide timeout installed by
the useEffect whenever a snackbar message is present (in time units of
1000 ms). -/
structure PageState where
  outputUrl : Option EncodedImage
  error : Option String
  isDragging : Bool
  snackbar : Option String
  activeIndex : Nat
  snackbarTimer : Option Nat

/-- The initial state of the component: no result, no error, not dragging,
no snackbar, active preset index 1 (PNG to JPG), no pending timer. -/
def initialState : PageState :=
  { outputUrl := none, error := none, isDragging := false,
    snackbar := none, activeIndex := 1, snackbarTimer := none }

/-- The active converter lookup converters[activeIndex]. -/
def activeConverter (s : PageState) : Option ConverterConfig :=
  converters[s.activeIndex]?

/-- The type-mismatch snackbar message built in convertFile. -/
def typeMismatchMsg (c : ConverterConfig) : String :=
  "❌ Please upload a valid " ++ c.inputMime ++ " file for " ++ c.label

/-- The fixed unsupported-conversion snackbar message of convertFile. -/
def unsupportedMsg : String :=
  "⚠ This conversion requires backend support. Not supported in browser."

/-- setSnackbar(m) together with the useEffect that reacts to it: the
message is stored and a fresh 3-unit auto-hide timer is installed (any
previous timer is cleared by the effect cleanup). -/
def setSnackbarS (m : String) (s : PageState) : PageState :=
  { s with snackbar := some m, snackbarTimer := some 3 }

/-- One time unit elapsing with no user action: a pending snackbar timer
counts down, and when it fires the snackbar is set to null (after which
the effect installs no new timer). -/
def tickSnackbar (s : PageState) : PageState :=
  match s.snackbarTimer with
  | none => s
  | some n =>
    if n ≤ 1 then { s with snackbar := none, snackbarTimer := none }
    else { s with snackbarTimer := some (n - 1) }

/-- The convertFile routine of the source.  ctxOk says whether
canvas.getContext("2d") succeeds in the host environment.  In order, as in
the source: reject with a type-mismatch notice when the declared file type
differs from the active preset inputMime; reject the two document presets
with the fixed unsupported notice; otherwise decode the file (a decode
failure fires no onload and changes nothing), and when a 2d context is
available, size the canvas to the bitmap, paint a white background when
the output is image/jpeg, draw the bitmap and store the encoded result.
If the context is unavailable nothing happens. -/
def convertFile (ctxOk : Bool) (s : PageState) (file : UploadFile) : PageState :=
  match converters[s.activeIndex]? with
  | none => s
  | some c =>
    if file.type ≠ c.inputMime then
      setSnackbarS (typeMismatchMsg c) { s with outputUrl := none }
    else if c.label = "Word to JPEG" ∨ c.label = "JPEG to Word" then
      setSnackbarS unsupportedMsg { s with outputUrl := none }
    else
      match file.decoded with
      | none => s
      | some img =>
        if ctxOk then
          let canvas := createCanvas img.width img.height
          let canvas :=
            if c.outputMime = "image/jpeg" then
              fillRect canvas 0 0 canvas.width canvas.height whitePixel
            else canvas
          let canvas := drawImage canvas img 0 0
          { s with outputUrl := some (toDataURL canvas c.outputMime (9 / 10)) }
        else s

/-- The onClick handler of a converter tab button: set the active index,
clear the result, clear the error state.  The snackbar is not touched. -/
def clickTab (i : Nat) (s : PageState) : PageState :=
  { s with activeIndex := i, outputUrl := none, error := none }

/-- handleClear: clear the result and the error state.  Neither the
selection nor the snackbar is touched. -/
def handleClear (s : PageState) : PageState :=
  { s with outputUrl := none, error := none }

/-- handleDragOver and handleDragEnter both set the dragging flag. -/
def dragStart (s : PageState) : PageState :=
  { s with isDragging := true }

/-- handleDragLeave clears the dragging flag. -/
def dragStop (s : PageState) : PageState :=
  { s with isDragging := false }

/-- handleDrop: clear the dragging flag, then convert the dropped file. -/
def handleDrop (ctxOk : Bool) (s : PageState) (file : UploadFile) : PageState :=
  convertFile ctxOk { s with isDragging := false } file

/-- The discrete user-visible events of the page.  Tab clicks carry an
index below converters.length because the tab buttons are generated by
mapping over the converter list; the extra More button has no onClick
handler, so clicking it is a separate event that does nothing. -/
inductive Event where
  | upload (ctxOk : Bool) (f : UploadFile)
  | dropFile (ctxOk : Bool) (f : UploadFile)
  | tabClick (i : Fin converters.length)
  | moreClick
  | clearClick
  | dragOver
  | dragEnter
  | dragLeave
  | tick

/-- The effect of one event on the page state. -/
def step (e : Event) (s : PageState) : PageState :=
  match e with
  | .upload ctxOk f => convertFile ctxOk s f
  | .dropFile ctxOk f => handleDrop ctxOk s f
  | .tabClick i => clickTab i.val s
  | .moreClick => s
  | .clearClick => handleClear s
  | .dragOver => dragStart s
  | .dragEnter => dragStart s
  | .dragLeave => dragStop s
  | .tick => tickSnackbar s

/-- Running a sequence of events from a state. -/
def run (evs : List Event) (s : PageState) : PageState :=
  evs.foldl (fun s e => step e s) s

/-- A sample decodable PNG upload: declared type image/png, decoding to a
one-by-one bitmap whose single pixel is fully transparent. -/
def pngFile : UploadFile :=
  ⟨"image/png", some ⟨1, 1, fun _ _ => ⟨10, 20, 30, 0⟩⟩⟩

/-- The converter at index 4 of the table, spelled out. -/
def wordToJpegConfig : ConverterConfig :=
  { label := "Word to JPEG",
    inputMime := "application/vnd.openxmlformats-officedocument.wordprocessingml.document",
    outputMime := "image/jpeg", downloadExt := "jpg" }

/-- The converter at index 1 of the table, spelled out. -/
def pngToJpgConfig : ConverterConfig :=
  { label := "PNG to JPG", inputMime := "image/png",
    outputMime := "image/jpeg", downloadExt := "jpg" }

lemma over_a0_white (p : Pixel) (h : p.a = 0) : over p whitePixel = whitePixel := by
  simp [over, whitePixel, h]

lemma flattenJpeg_white : flattenJpeg whitePixel = whitePixel := by
  decide

lemma convertFile_success_eq (ctxOk : Bool) (s : PageState) (f : UploadFile)
    (c : ConverterConfig) (img : Bitmap)
    (hc : converters[s.activeIndex]? = some c)
    (ht : f.type = c.inputMime)
    (h1 : c.label ≠ "Word to JPEG") (h2 : c.label ≠ "JPEG to Word")
    (hd : f.decoded = some img) (hctx : ctxOk = true) :
    convertFile ctxOk s f =
      { s with outputUrl := some (toDataURL
          (drawImage
            (if c.outputMime = "image/jpeg" then
              fillRect (createCanvas img.width img.height) 0 0 img.width img.height whitePixel
            else createCanvas img.width img.height)
            img 0 0)
          c.outputMime (9 / 10)) } := by
  subst hctx
  simp [convertFile, hc, ht, h1, h2, hd, createCanvas]

/-- C1: for every preset P in the converter list and every file F, if the
declared MIME type of F is not exactly P.inputMime while P is the active
preset, then convertFile clears the result and sets the type-mismatch
notice. -/
theorem C1_type_mismatch_rejects (ctxOk : Bool) (s : PageState) (f : UploadFile)
    (c : ConverterConfig) (hc : converters[s.activeIndex]? = some c)
    (hne : f.type ≠ c.inputMime) :
    (convertFile ctxOk s f).outputUrl = none ∧
    (convertFile ctxOk s f).snackbar = some (typeMismatchMsg c) := by
  simp [convertFile, hc, hne, setSnackbarS]

/-- C1 witness: uploading a JPEG while the default PNG to JPG preset is
active clears the result and sets the type-mismatch notice. -/
theorem C1_type_mismatch_rejects_witness :
    (convertFile true initialState ⟨"image/jpeg", none⟩).outputUrl = none ∧
    (convertFile true initialState ⟨"image/jpeg", none⟩).snackbar =
      some (typeMismatchMsg pngToJpgConfig) :=
  C1_type_mismatch_rejects true initialState ⟨"image/jpeg", none⟩ pngToJpgConfig
    (by decide) (by decide)

/-- C2 counterexample: under the Word to JPEG preset, a file whose declared
type is image/png does not receive the fixed unsupported-conversion
notice; the type check runs first and produces the type-mismatch notice
instead. -/
theorem C2_counterexample :
    (convertFile true (clickTab 4 initialState) ⟨"image/png", none⟩).snackbar ≠
      some unsupportedMsg ∧
    (convertFile true (clickTab 4 initialState) ⟨"image/png", none⟩).snackbar =
      some (typeMismatchMsg wordToJpegConfig) := by
  constructor
  · decide
  · decide

/-- C2 amended: for the two document presets, every input has its result
cleared; the notice is the fixed unsupported-conversion notice exactly
when the declared type matches the preset inputMime, and the
type-mismatch notice otherwise. -/
theorem C2_doc_presets_never_convert (ctxOk : Bool) (s : PageState) (f : UploadFile)
    (c : ConverterConfig) (hc : converters[s.activeIndex]? = some c)
    (hdoc : c.label = "Word to JPEG" ∨ c.label = "JPEG to Word") :
    (convertFile ctxOk s f).outputUrl = none ∧
    (convertFile ctxOk s f).snackbar =
      some (if f.type = c.inputMime then unsupportedMsg else typeMismatchMsg c) := by
  by_cases ht : f.type = c.inputMime
  · simp [convertFile, hc, ht, hdoc, setSnackbarS]
  · simp [convertFile, hc, ht, setSnackbarS]

/-- C2 amended witness: a correctly typed docx file under the Word to JPEG
preset yields no result and the fixed unsupported-conversion notice. -/
theorem C2_doc_presets_never_convert_witness :
    (convertFile true (clickTab 4 initialState)
        ⟨"application/vnd.openxmlformats-officedocument.wordprocessingml.document", none⟩).outputUrl = none ∧
    (convertFile true (clickTab 4 initialState)
        ⟨"application/vnd.openxmlformats-officedocument.wordprocessingml.document", none⟩).snackbar =
      some (if ("application/vnd.openxmlformats-officedocument.wordprocessingml.document" : String) = wordToJpegConfig.inputMime then unsupportedMsg else typeMismatchMsg wordToJpegConfig) :=
  C2_doc_presets_never_convert true (clickTab 4 initialState)
    ⟨"application/vnd.openxmlformats-officedocument.wordprocessingml.document", none⟩
    wordToJpegConfig (by decide) (Or.inl rfl)

/-- C3 counterexample: a successful conversion does not clear an existing
notice; from a state whose snackbar is set, converting a valid PNG under
the PNG to JPG preset produces a result while the snackbar stays set. -/
theorem C3_counterexample :
    ((convertFile true (setSnackbarS "note" initialState) pngFile).outputUrl).isSome = true ∧
    (convertFile true (setSnackbarS "note" initialState) pngFile).snackbar = some "note" := by
  constructor
  · decide
  · decide

/-- C3 amended: on every successful conversion the result is set to the
encoded output of the active preset output type, and the notice is left
unchanged, not cleared; in particular from a notice-free state a valid
PNG under PNG to JPG yields an encoded-JPEG result and no notice. -/
theorem C3_success_sets_result_keeps_notice (ctxOk : Bool) (s : PageState)
    (f : UploadFile) (c : ConverterConfig) (img : Bitmap)
    (hc : converters[s.activeIndex]? = some c)
    (ht : f.type = c.inputMime)
    (h1 : c.label ≠ "Word to JPEG") (h2 : c.label ≠ "JPEG to Word")
    (hd : f.decoded = some img) (hctx : ctxOk = true) :
    (∃ e, (convertFile ctxOk s f).outputUrl = some e ∧ e.mime = c.outputMime) ∧
    (convertFile ctxOk s f).snackbar = s.snackbar := by
  rw [convertFile_success_eq ctxOk s f c img hc ht h1 h2 hd hctx]
  exact ⟨⟨_, rfl, rfl⟩, rfl⟩

/-- C3 amended witness: from the initial state, converting a valid PNG
under the default PNG to JPG preset yields an encoded image/jpeg result
and the snackbar stays absent. -/
theorem C3_success_sets_result_keeps_notice_witness :
    (∃ e, (convertFile true initialState pngFile).outputUrl = some e ∧
      e.mime = pngToJpgConfig.outputMime) ∧
    (convertFile true initialState pngFile).snackbar = initialState.snackbar :=
  C3_success_sets_result_keeps_notice true initialState pngFile pngToJpgConfig
    (Bitmap.mk 1 1 (fun _ _ => ⟨10, 20, 30, 0⟩))
    (by decide) rfl (by decide) (by decide) rfl rfl

/-- C4 counterexample: clicking a converter tab does not clear an existing
notice; from a state whose snackbar is set, the snackbar is still set
after the click even though the result is cleared. -/
theorem C4_counterexample :
    (clickTab 0 (setSnackbarS "note" initialState)).snackbar ≠ none ∧
    (clickTab 0 (setSnackbarS "note" initialState)).outputUrl = none := by
  exact ⟨by decide, rfl⟩

/-- C4 amended: switching the active preset to index i clears the result
and the never-displayed error state and performs no re-conversion, but
leaves the snackbar notice unchanged. -/
theorem C4_tab_click (s : PageState) (i : Nat) :
    (clickTab i s).outputUrl = none ∧ (clickTab i s).error = none ∧
    (clickTab i s).snackbar = s.snackbar ∧ (clickTab i s).activeIndex = i :=
  ⟨rfl, rfl, rfl, rfl⟩

/-- C4 amended witness: clicking the first tab from the initial state
clears result and error, keeps the (absent) snackbar and selects index
zero. -/
theorem C4_tab_click_witness :
    (clickTab 0 initialState).outputUrl = none ∧
    (clickTab 0 initialState).error = none ∧
    (clickTab 0 initialState).snackbar = initialState.snackbar ∧
    (clickTab 0 initialState).activeIndex = 0 :=
  C4_tab_click initialState 0

/-- C5 counterexample: the manual Clear control does not clear an existing
notice; from a state whose snackbar is set, the snackbar is still set
after handleClear even though the result is cleared. -/
theorem C5_counterexample :
    (handleClear (setSnackbarS "note" initialState)).snackbar ≠ none ∧
    (handleClear (setSnackbarS "note" initialState)).outputUrl = none := by
  exact ⟨by decide, rfl⟩

/-- C5 amended: the manual reset clears the result and the never-displayed
error state, preserves the current preset selection, and leaves the
snackbar notice unchanged. -/
theorem C5_clear (s : PageState) :
    (handleClear s).outputUrl = none ∧ (handleClear s).error = none ∧
    (handleClear s).activeIndex = s.activeIndex ∧
    (handleClear s).snackbar = s.snackbar :=
  ⟨rfl, rfl, rfl, rfl⟩

/-- C5 amended witness: clearing from the initial state empties result and
error while leaving selection and snackbar as they were. -/
theorem C5_clear_witness :
    (handleClear initialState).outputUrl = none ∧
    (handleClear initialState).error = none ∧
    (handleClear initialState).activeIndex = initialState.activeIndex ∧
    (handleClear initialState).snackbar = initialState.snackbar :=
  C5_clear initialState

/-- C6: when the active preset output type is image/jpeg, the white
background painted over the full canvas before drawing makes every fully
transparent source pixel come out as opaque white in the encoded result,
not black. -/
theorem C6_jpeg_transparency_is_white (ctxOk : Bool) (s : PageState)
    (f : UploadFile) (c : ConverterConfig) (img : Bitmap)
    (hc : converters[s.activeIndex]? = some c)
    (ht : f.type = c.inputMime)
    (h1 : c.label ≠ "Word to JPEG") (h2 : c.label ≠ "JPEG to Word")
    (hd : f.decoded = some img) (hctx : ctxOk = true)
    (hjpeg : c.outputMime = "image/jpeg")
    (x y : Nat) (hx : x < img.width) (hy : y < img.height)
    (ha : (img.pix x y).a = 0) :
    ∃ e, (convertFile ctxOk s f).outputUrl = some e ∧ e.pix x y = whitePixel := by
  rw [convertFile_success_eq ctxOk s f c img hc ht h1 h2 hd hctx]
  refine ⟨_, rfl, ?_⟩
  simp [toDataURL, drawImage, fillRect, createCanvas, hjpeg, hx, hy,
    over_a0_white _ ha, flattenJpeg_white]

/-- C6 witness: converting the sample transparent PNG under the default
PNG to JPG preset yields an encoded image whose pixel at the origin is
opaque white. -/
theorem C6_jpeg_transparency_is_white_witness :
    ∃ e, (convertFile true initialState pngFile).outputUrl = some e ∧
      e.pix 0 0 = whitePixel :=
  C6_jpeg_transparency_is_white true initialState pngFile pngToJpgConfig
    (Bitmap.mk 1 1 (fun _ _ => ⟨10, 20, 30, 0⟩))
    (by decide) rfl (by decide) (by decide) rfl rfl rfl 0 0
    (by decide) (by decide) rfl

/-- C7: a notice, once set, is cleared automatically after exactly three
time units when no further user action occurs: after two units it is
still displayed, after the third it is gone. -/
theorem C7_snackbar_auto_hides (s : PageState) (m : String) :
    ((tickSnackbar^[2]) (setSnackbarS m s)).snackbar = some m ∧
    ((tickSnackbar^[3]) (setSnackbarS m s)).snackbar = none := by
  constructor <;> rfl

/-- C7 witness: from the initial state with a freshly set notice, the
notice survives two time units and is gone after the third. -/
theorem C7_snackbar_auto_hides_witness :
    ((tickSnackbar^[2]) (setSnackbarS "note" initialState)).snackbar = some "note" ∧
    ((tickSnackbar^[3]) (setSnackbarS "note" initialState)).snackbar = none :=
  C7_snackbar_auto_hides initialState "note"

/-- C8: when the 2d canvas context cannot be acquired during an otherwise
valid conversion, convertFile is a silent no-op: the state, including any
existing result and notice, is returned unchanged and no notice is set. -/
theorem C8_ctx_failure_is_silent_noop (s : PageState) (f : UploadFile)
    (c : ConverterConfig) (img : Bitmap)
    (hc : converters[s.activeIndex]? = some c)
    (ht : f.type = c.inputMime)
    (h1 : c.label ≠ "Word to JPEG") (h2 : c.label ≠ "JPEG to Word")
    (hd : f.decoded = some img) :
    convertFile false s f = s := by
  simp [convertFile, hc, ht, h1, h2, hd]

/-- C8 witness: with the context unavailable, converting the sample PNG
from the initial state leaves the state exactly as it was. -/
theorem C8_ctx_failure_is_silent_noop_witness :
    convertFile false initialState pngFile = initialState :=
  C8_ctx_failure_is_silent_noop initialState pngFile pngToJpgConfig
    (Bitmap.mk 1 1 (fun _ _ => ⟨10, 20, 30, 0⟩))
    (by decide) rfl (by decide) (by decide) rfl

/-- C9: on the supported conversion path the encoded output has exactly the
decoded bitmap natural width and height (the canvas dimensions), carries
the active preset output MIME type, and was requested at quality 0.9. -/
theorem C9_canvas_size_and_quality (ctxOk : Bool) (s : PageState)
    (f : UploadFile) (c : ConverterConfig) (img : Bitmap)
    (hc : converters[s.activeIndex]? = some c)
    (ht : f.type = c.inputMime)
    (h1 : c.label ≠ "Word to JPEG") (h2 : c.label ≠ "JPEG to Word")
    (hd : f.decoded = some img) (hctx : ctxOk = true) :
    ∃ e, (convertFile ctxOk s f).outputUrl = some e ∧
      e.width = img.width ∧ e.height = img.height ∧
      e.mime = c.outputMime ∧ e.quality = 9 / 10 := by
  rw [convertFile_success_eq ctxOk s f c img hc ht h1 h2 hd hctx]
  refine ⟨_, rfl, ?_, ?_, rfl, rfl⟩
  · by_cases hj : c.outputMime = "image/jpeg" <;>
      simp [hj, toDataURL, drawImage, fillRect, createCanvas]
  · by_cases hj : c.outputMime = "image/jpeg" <;>
      simp [hj, toDataURL, drawImage, fillRect, createCanvas]

/-- C9 witness: converting the sample one-by-one PNG under PNG to JPG
yields an encoded output of width one, height one, MIME image/jpeg and
quality nine tenths. -/
theorem C9_canvas_size_and_quality_witness :
    ∃ e, (convertFile true initialState pngFile).outputUrl = some e ∧
      e.width = 1 ∧ e.height = 1 ∧
      e.mime = pngToJpgConfig.outputMime ∧ e.quality = 9 / 10 :=
  C9_canvas_size_and_quality true initialState pngFile pngToJpgConfig
    (Bitmap.mk 1 1 (fun _ _ => ⟨10, 20, 30, 0⟩))
    (by decide) rfl (by decide) (by decide) rfl rfl

lemma convertFile_activeIndex (ctxOk : Bool) (s : PageState) (f : UploadFile) :
    (convertFile ctxOk s f).activeIndex = s.activeIndex := by
  unfold convertFile
  cases hc : converters[s.activeIndex]? with
  | none => rfl
  | some c =>
    by_cases ht : f.type = c.inputMime
    · by_cases hdoc : c.label = "Word to JPEG" ∨ c.label = "JPEG to Word"
      · simp [ht, hdoc, setSnackbarS]
      · cases hd : f.decoded with
        | none => simp [ht, hdoc, hd]
        | some img => cases ctxOk <;> simp [ht, hdoc, hd]
    · simp [ht, setSnackbarS]

lemma tickSnackbar_activeIndex (s : PageState) :
    (tickSnackbar s).activeIndex = s.activeIndex := by
  unfold tickSnackbar
  cases s.snackbarTimer with
  | none => rfl
  | some n => by_cases h : n ≤ 1 <;> simp [h]

lemma step_preserves_activeIndex_lt (e : Event) (s : PageState)
    (h : s.activeIndex < converters.length) :
    (step e s).activeIndex < converters.length := by
  cases e with
  | upload ctxOk f => rw [step, convertFile_activeIndex]; exact h
  | dropFile ctxOk f => rw [step, handleDrop, convertFile_activeIndex]; exact h
  | tabClick i => exact i.isLt
  | moreClick => exact h
  | clearClick => exact h
  | dragOver => exact h
  | dragEnter => exact h
  | dragLeave => exact h
  | tick => rw [step, tickSnackbar_activeIndex]; exact h

lemma run_preserves_activeIndex_lt (evs : List Event) (s : PageState)
    (h : s.activeIndex < converters.length) :
    (run evs s).activeIndex < converters.length := by
  induction evs generalizing s with
  | nil => exact h
  | cons e evs ih => exact ih (step e s) (step_preserves_activeIndex_lt e s h)

/-- C10: the active selection index starts at one, the More button changes
nothing, and after every sequence of events the index is a valid index
into the six-element converter list, so the active converter lookup is
always defined. -/
theorem C10_activeIndex_always_valid :
    initialState.activeIndex = 1 ∧
    (∀ s : PageState, step Event.moreClick s = s) ∧
    ∀ evs : List Event,
      (run evs initialState).activeIndex < converters.length ∧
      (activeConverter (run evs initialState)).isSome = true := by
  refine ⟨rfl, fun s => rfl, fun evs => ?_⟩
  have h := run_preserves_activeIndex_lt evs initialState (by decide)
  refine ⟨h, ?_⟩
  rw [activeConverter, List.getElem?_eq_getElem h]
  rfl

/-- C10 witness: after a sample event sequence of a tab click, a clear and
a tick, the selection index is a valid index and the lookup succeeds. -/
theorem C10_activeIndex_always_valid_witness :
    (run [Event.tabClick ⟨0, by decide⟩, Event.clearClick, Event.tick]
        initialState).activeIndex < converters.length ∧
    (activeConverter (run [Event.tabClick ⟨0, by decide⟩, Event.clearClick, Event.tick]
        initialState)).isSome = true :=
  C10_activeIndex_always_valid.2.2
    [Event.tabClick ⟨0, by decide⟩, Event.clearClick, Event.tick]

end ImageConversion
